import Mathlib

/-!
Verification of the norway-property-finder extraction and classification
pipeline.  The JavaScript sources (src/scraper.js, src/server.js and the
companion scraper/server modules) are shallowly embedded below: JS strings
become `List Char`, JS values become the inductive `JVal`, fallible
operations return `Option`, and the platform builtins that the code calls
(String.prototype.includes / indexOf / substring / trim / toLowerCase,
Number.prototype.toLocaleString, JSON.parse) are given explicit executable
models or are abstracted as function parameters where their internals are
irrelevant to the properties proved.
-/

namespace NPF

/-! Models of the JavaScript string builtins used by the pipeline. -/

/-- Model of the JS whitespace class used by String.prototype.trim
(space, tab, line feed, carriage return, vertical tab, form feed,
no-break space). -/
def jsWhitespaceChar (c : Char) : Bool :=
  c == ' ' || c == '\t' || c == '\n' || c == '\r' ||
  c == '\u000B' || c == '\u000C' || c == ' '

/-- Model of String.prototype.trim: strip leading and trailing whitespace. -/
def trimJS (s : List Char) : List Char :=
  ((s.dropWhile jsWhitespaceChar).reverse.dropWhile jsWhitespaceChar).reverse

/-- Does `pat` occur in `text` starting exactly at position `i`? -/
def matchAtPos (text pat : List Char) (i : Nat) : Bool :=
  decide ((text.drop i).take pat.length = pat)

/-- Linear scan behind String.prototype.indexOf: try positions
`i, i+1, ...` while fuel lasts. -/
def indexOfAux (text pat : List Char) (i : Nat) : Nat → Option Nat
  | 0 => none
  | fuel + 1 =>
    if matchAtPos text pat i then some i else indexOfAux text pat (i + 1) fuel

/-- Model of String.prototype.indexOf(pat, start): the first position
`≥ start` at which `pat` occurs, `none` when it does not occur
(JS returns -1). -/
def indexOfSubFrom (text pat : List Char) (start : Nat) : Option Nat :=
  indexOfAux text pat start (text.length + 1 - start)

/-- Model of String.prototype.indexOf(pat). -/
def indexOfSub (text pat : List Char) : Option Nat :=
  indexOfSubFrom text pat 0

/-- Model of String.prototype.includes. -/
def containsSub (text pat : List Char) : Bool :=
  (indexOfSub text pat).isSome

/-- Model of String.prototype.substring(a, b) for `a ≤ b`: the characters
at positions `[a, b)`, with both ends clamped to the string length. -/
def substringJS (s : List Char) (a b : Nat) : List Char :=
  (s.take b).drop a

/-- Model of String.prototype.toLowerCase restricted to the characters the
pipeline meets: ASCII letters plus the Norwegian letters Æ, Ø, Å. -/
def jsLowerChar (c : Char) : Char :=
  if c == 'Æ' then 'æ' else if c == 'Ø' then 'ø' else if c == 'Å' then 'å'
  else c.toLower

/-- Model of String.prototype.toLowerCase on a whole string. -/
def jsToLower (s : List Char) : List Char :=
  s.map jsLowerChar

/-!
Building-obligation classification, from src/scraper.js lines 215-345 and
the identical current copy in the turbo-stream scraper module (lines
280-319 and 475-504).  The three pattern lists are transcribed verbatim.
-/

/-- Keywords that indicate NO building obligation
(NO_OBLIGATION_PATTERNS, scraper lines 215-227). -/
def NO_OBLIGATION_PATTERNS : List (List Char) :=
  [ "uten byggeklausul".data,
    "ingen byggeklausul".data,
    "ingen byggeplikt".data,
    "uten byggeplikt".data,
    "fri for byggeklausul".data,
    "ikke byggeklausul".data,
    "ingen leverandørbinding".data,
    "uten leverandørbinding".data,
    "fritt valg av".data,
    "velg selv".data,
    "valgfri".data ]

/-- Keywords that indicate HAS building clause
(HAS_CLAUSE_PATTERNS, scraper lines 230-239). -/
def HAS_CLAUSE_PATTERNS : List (List Char) :=
  [ "med byggeklausul".data,
    "byggeklausul på".data,
    "leverandørbinding".data,
    "hustype".data,
    "boligen skal leveres av".data,
    "skal oppføres av".data,
    "utbygger er".data,
    "må bygges av".data ]

/-- Keywords that indicate HAS deadline to build
(HAS_DEADLINE_PATTERNS, scraper lines 242-254). -/
def HAS_DEADLINE_PATTERNS : List (List Char) :=
  [ "må bebygges innen".data,
    "skal bebygges innen".data,
    "bebygd innen".data,
    "byggefrist".data,
    "byggetid".data,
    "byggeplikt".data,
    "frist for bebyggelse".data,
    "forpliktet til å bygge".data,
    "bolig skal oppføres".data,
    "må bebygges slik".data,
    "plikt til å bebygge".data ]

/-- Result record of classifyObligation: the obligation tag is the literal
JS string returned by the source, the snippet is `none` when the source
returns `text: null`. -/
structure ObligationResult where
  obligation : String
  text : Option (List Char)
deriving DecidableEq

/-- One pass of the source's pattern loop: find the first pattern in the
list that occurs in `text`, together with the position of its first
occurrence (text.includes plus text.indexOf). -/
def scanPatterns (text : List Char) : List (List Char) → Option (List Char × Nat)
  | [] => none
  | p :: rest =>
    match indexOfSub text p with
    | some idx => some (p, idx)
    | none => scanPatterns text rest

/-- The evidentiary snippet built on a pattern hit (scraper lines 320-321):
text.substring(Math.max(0, idx - 40), idx + pattern.length + 40).trim().
Nat subtraction `idx - 40` is exactly Math.max(0, idx - 40). -/
def mkSnippet (text : List Char) (idx plen : Nat) : List Char :=
  trimJS (substringJS text (idx - 40) (idx + plen + 40))

/-- classifyObligation (scraper lines 316-345): the three pattern sets are
checked in priority order; the first hit determines tag and snippet. -/
def classifyObligation (text : List Char) : ObligationResult :=
  match scanPatterns text NO_OBLIGATION_PATTERNS with
  | some (p, idx) => ⟨"none", some (mkSnippet text idx p.length)⟩
  | none =>
  match scanPatterns text HAS_CLAUSE_PATTERNS with
  | some (p, idx) => ⟨"has_clause", some (mkSnippet text idx p.length)⟩
  | none =>
  match scanPatterns text HAS_DEADLINE_PATTERNS with
  | some (p, idx) => ⟨"has_deadline", some (mkSnippet text idx p.length)⟩
  | none => ⟨"unknown", none⟩

/-- The combined priority scan: the pattern and match position that
classifyObligation acts on (first matching pattern across the
no-obligation, has-clause, has-deadline sequence). -/
def obligationScan (text : List Char) : Option (List Char × Nat) :=
  match scanPatterns text NO_OBLIGATION_PATTERNS with
  | some r => some r
  | none =>
  match scanPatterns text HAS_CLAUSE_PATTERNS with
  | some r => some r
  | none => scanPatterns text HAS_DEADLINE_PATTERNS

/-!
The turbo-stream indexed-reference resolver, from the current scraper
module (decodeTurboStream at lines 14-35 and resolveRef at lines 43-69).
-/

/-- Untyped JavaScript values as they occur in a decoded turbo-stream flat
array: scalars, arrays, and plain objects (association lists of string
keys).  `undef` is JS undefined, distinct from `null`. -/
inductive JVal where
  | null : JVal
  | undef : JVal
  | bool : Bool → JVal
  | num : Int → JVal
  | str : String → JVal
  | arr : List JVal → JVal
  | obj : List (String × JVal) → JVal

/-- Model of JS array indexing a[i]: out-of-range or negative indices give
undefined. -/
def jsArrGet (a : List JVal) (i : Int) : JVal :=
  if 0 ≤ i ∧ i.toNat < a.length then a.getD i.toNat JVal.undef else JVal.undef

/-- Model of parseInt(s, 10): skip leading whitespace, optional sign,
then a non-empty run of decimal digits; `none` is JS NaN. -/
def parseIntJS (s : List Char) : Option Int :=
  let s1 := s.dropWhile jsWhitespaceChar
  let (neg, s2) :=
    match s1 with
    | '-' :: rest => (true, rest)
    | '+' :: rest => (false, rest)
    | rest => (false, rest)
  let digits := s2.takeWhile Char.isDigit
  if digits = [] then none
  else
    let v : Nat := digits.foldl (fun acc c => acc * 10 + (c.toNat - 48)) 0
    some (if neg then -(v : Int) else (v : Int))

/-- Model of k.replace(String.fromCharCode(95), two-quote empty string):
JS String.prototype.replace with a string argument removes only the first
occurrence. -/
def removeFirstUnderscore : List Char → List Char
  | [] => []
  | c :: rest => if c = '_' then rest else c :: removeFirstUnderscore rest

mutual

/-- Comma-joined rendering behind Array.prototype.toString. -/
def jvalListString : List JVal → String
  | [] => ""
  | [x] => jvalElemString x
  | x :: xs => jvalElemString x ++ "," ++ jvalListString xs

/-- Element rendering inside Array.prototype.join: null and undefined
become the empty string. -/
def jvalElemString : JVal → String
  | JVal.null => ""
  | JVal.undef => ""
  | JVal.bool b => if b then "true" else "false"
  | JVal.num n => toString n
  | JVal.str s => s
  | JVal.arr xs => jvalListString xs
  | JVal.obj _ => "[object Object]"

end

/-- Model of the implicit JS string coercion applied when a value is used
as an object key (String(v)); arrays join their elements with commas, with
null/undefined elements rendered empty, objects render as
"[object Object]". -/
def jvalKeyString : JVal → String
  | JVal.null => "null"
  | JVal.undef => "undefined"
  | JVal.bool b => if b then "true" else "false"
  | JVal.num n => toString n
  | JVal.str s => s
  | JVal.arr xs => jvalListString xs
  | JVal.obj _ => "[object Object]"

/-- Key-name lookup inside resolveRef's object branch (lines 57-58):
parseInt(k.replace(...), 10) indexes the flat array; a NaN index or an
out-of-range index reads undefined, which coerces to "undefined". -/
def objKeyName (a : List JVal) (k : String) : String :=
  match parseIntJS (removeFirstUnderscore k.data) with
  | none => "undefined"
  | some i => jvalKeyString (jsArrGet a i)

mutual

/-- resolveRef (scraper module lines 43-69), in fuel form: a call at JS
depth `d` corresponds to fuel `16 - d`, so fuel 0 is exactly the source's
depth guard `if (depth > 15) return null`, and each recursion into an
object's or array's components consumes one unit of fuel. -/
def resolveRefF (a : List JVal) (fuel : Nat) (idx : JVal) : JVal :=
  match fuel, idx with
  | 0, _ => JVal.null
  | fuel' + 1, JVal.num n =>
    if n < 0 then JVal.null else resolveDispatch a fuel' (jsArrGet a n)
  | fuel' + 1, v => resolveDispatch a fuel' v
termination_by 2 * fuel

/-- Dispatch on the fetched value (lines 54-68): non-array objects are
rebuilt key by key, arrays are mapped, scalars are returned as they are;
component resolution recurses at depth + 1. -/
def resolveDispatch (a : List JVal) (fuel : Nat) : JVal → JVal
  | JVal.obj entries =>
    JVal.obj (entries.map (fun kv => (objKeyName a kv.1, resolveRefF a fuel kv.2)))
  | JVal.arr xs => JVal.arr (xs.map (fun x => resolveRefF a fuel x))
  | v => v
termination_by 2 * fuel + 1

end

/-- resolveRef with the source's depth parameter: resolveRef(arr, idx,
depth) of the JS code. -/
def resolveRefD (a : List JVal) (idx : JVal) (depth : Nat) : JVal :=
  resolveRefF a (16 - depth) idx

mutual

/-- Nesting depth of a JS value: scalars are 0, an object or array is one
more than the deepest component. -/
def jdepth : JVal → Nat
  | JVal.obj entries => jdepthEntries entries + 1
  | JVal.arr xs => jdepthList xs + 1
  | _ => 0

/-- Nesting depth of a list of values. -/
def jdepthList : List JVal → Nat
  | [] => 0
  | x :: xs => max (jdepth x) (jdepthList xs)

/-- Nesting depth of an object's entry list. -/
def jdepthEntries : List (String × JVal) → Nat
  | [] => 0
  | kv :: rest => max (jdepth kv.2) (jdepthEntries rest)

end

/-!
Payload extraction.  The current scraper module exposes decodeTurboStream
(lines 14-35) as its only decode entry point; it recognises Encoding B
(the flattened indexed-reference stream embedded in a
streamController.enqueue call).  Encoding A (the window.__remixContext
JSON embed) is recognised only by the separate legacy scraper
(src/scraper.js lines 140-150), whose extraction is the regex
window.__remixContext = literal followed by a direct JSON.parse.
-/

/-- The Encoding B probe: the literal scanned for by
decodeTurboStream's first step. -/
def enqueueMarker : List Char := "streamController.enqueue(".data

/-- The Encoding A marker: the global-variable name that the legacy
regex requires to occur verbatim; no occurrence means the legacy
extractor cannot match and throws. -/
def remixMarker : List Char := "window.__remixContext".data

/-- The escape-respecting quote scan of decodeTurboStream (lines 23-28):
walk the JS string from position `i`, skipping a character after each
backslash, until an unescaped double quote or the end of the document. -/
def scanToClose (html : List Char) (i : Nat) : Nat :=
  if h : i < html.length then
    let c := html.getD i ' '
    if c = '\\' then scanToClose html (i + 2)
    else if c = '"' then i
    else scanToClose html (i + 1)
  else i
termination_by html.length - i
decreasing_by
  all_goals omega

/-- Model of String.prototype.slice(a, b) for `0 ≤ a ≤ b` (b clamped). -/
def sliceJS (s : List Char) (a b : Nat) : List Char :=
  (s.take b).drop a

/-- The extraction stage of decodeTurboStream (lines 16-30): locate the
streaming-enqueue call, find the first quote after it (the source indexes
from enqueueStart + 24, the position of the opening parenthesis), scan to
the matching unescaped closing quote, and slice out the quoted JS string
literal.  `none` corresponds to the source's early `return null`. -/
def decodeTurboStreamExtract (html : List Char) : Option (List Char) :=
  match indexOfSub html enqueueMarker with
  | none => none
  | some enqueueStart =>
    match indexOfSubFrom html ['"'] (enqueueStart + 24) with
    | none => none
    | some strStart =>
      let i := scanToClose html (strStart + 1)
      some (sliceJS html strStart (i + 1))

/-- decodeTurboStream (lines 14-35): the extraction stage followed by the
double JSON.parse.  JSON.parse is a platform builtin, so the two parse
steps (string-literal unescape, then JSON array) are abstracted as
parameters; a parse failure, which in the source escapes as an exception
and fails the page, is returned as `none` alongside the source's own
`return null` paths. -/
def decodeTurboStream (parseStrLit : List Char → Option (List Char))
    (parseJsonArr : List Char → Option (List JVal)) (html : List Char) :
    Option (List JVal) :=
  match decodeTurboStreamExtract html with
  | none => none
  | some jsString =>
    match parseStrLit jsString with
    | none => none
    | some inner => parseJsonArr inner

/-- A minimal Encoding A document: it carries the window.__remixContext
marker (and would be accepted by the legacy regex) but contains no
streaming-enqueue call. -/
def htmlEncodingA : List Char :=
  "<script>window.__remixContext = \x7b\"ok\":1\x7d;</script>".data

/-!
Development-status classification: classifyDeveloped, current scraper
module lines 511-541.  Each regex in the source is an alternation of
literal fragments joined by `.*`; since none of them carries the s flag,
the dot does not cross line terminators.  A regex is embedded as a list
of alternatives, each a list of literal fragments, and the i flag is
modelled by lowercasing the subject before matching.
-/

/-- Characters that the JS dot does not match (line terminators). -/
def jsLineTerminator (c : Char) : Bool :=
  c == '\n' || c == '\r' || c == ' ' || c == ' '

/-- Is a gap free of line terminators (what `.*` may span)? -/
def noNewlineGap (cs : List Char) : Bool :=
  cs.all (fun c => !jsLineTerminator c)

/-- Backtracking matcher for one alternative: match the fragments in
order, the current fragment being sought at candidate position `j`, with
the gap since `i` (the end of the previous fragment) restricted to
non-line-terminator characters — except for the first fragment, whose
leading context is unconstrained (`free`), as for any unanchored regex.
The fuel only bounds the scan: the candidate position never decreases and
is capped at the text length, and each fragment is consumed once, so
text.length + fragment count + 4 units always suffice. -/
def seqMatchFuel (text : List Char) :
    Nat → Bool → List (List Char) → Nat → Nat → Bool
  | 0, _, _, _, _ => false
  | _ + 1, _, [], _, _ => true
  | fuel + 1, free, f :: rest, i, j =>
    if text.length < j then false
    else if matchAtPos text f j &&
        (free || noNewlineGap (substringJS text i j)) then
      seqMatchFuel text fuel false rest (j + f.length) (j + f.length) ||
      seqMatchFuel text fuel free (f :: rest) i (j + 1)
    else seqMatchFuel text fuel free (f :: rest) i (j + 1)

/-- Match one alternative anywhere in the text. -/
def altMatch (text : List Char) (alt : List (List Char)) : Bool :=
  seqMatchFuel text (text.length + alt.length + 4) true alt 0 0

/-- Model of RegExp.prototype.test for a case-insensitive alternation of
`.*`-joined literal fragments. -/
def jsRegexTestI (alts : List (List (List Char))) (text : List Char) : Bool :=
  alts.any (fun alt => altMatch (jsToLower text) alt)

/-- The water-connected alternation (line 520). -/
def waterConnectedRe : List (List (List Char)) :=
  [ ["vann".data, "tilkoblet".data],
    ["tilknyttet".data, "vann".data],
    ["koblet".data, "vann".data],
    ["vann".data, "lagt".data, "til".data],
    ["etablert".data, "vann".data],
    ["vann og avløp".data, "til tomtegrense".data],
    ["vann".data, "i tomtegrense".data] ]

/-- The sewer-connected alternation (line 521). -/
def sewerConnectedRe : List (List (List Char)) :=
  [ ["avløp".data, "tilkoblet".data],
    ["tilknyttet".data, "avløp".data],
    ["koblet".data, "avløp".data],
    ["kloakk".data, "tilkoblet".data] ]

/-- The road-access alternation (line 522). -/
def roadAccessRe : List (List (List Char)) :=
  [ ["adkomst".data, "vei".data],
    ["tilkomst".data, "vei".data],
    ["tilknyttet".data, "vei".data],
    ["vei".data, "til tomten".data] ]

/-- The power-connected alternation (line 523). -/
def powerConnectedRe : List (List (List Char)) :=
  [ ["strøm".data, "til".data, "tomt".data],
    ["el".data, "satt av".data],
    ["byggestrøm".data],
    ["strøm".data, "lagt".data] ]

/-- The not-connected alternation (line 526). -/
def notConnectedRe : List (List (List Char)) :=
  [ ["ikke tilkoblet".data],
    ["ikke tilknyttet".data],
    ["ikke koblet".data],
    ["tomten er ikke".data, "vann".data],
    ["må selv".data, "tilknytt".data],
    ["kjøper".data, "besørge tilkn".data] ]

/-- JS truthiness of a nullable string: null and the empty string are
falsy. -/
def jsTruthyStr (o : Option (List Char)) : Bool :=
  match o with
  | some s => decide (s ≠ [])
  | none => false

/-- facilLower (line 512): (facilities converted by logical-or to the
empty string).toLowerCase(). -/
def facilLowerOf (facilities : Option (List Char)) : List Char :=
  jsToLower (facilities.getD [])

/-- utilLower (line 513). -/
def utilLowerOf (utilities : Option (List Char)) : List Char :=
  jsToLower (utilities.getD [])

/-- combined (line 514): facilLower, utilLower and the full text joined
with single spaces. -/
def combinedOf (facilities utilities fullText : Option (List Char)) :
    List Char :=
  facilLowerOf facilities ++ (' ' :: utilLowerOf utilities) ++
    (' ' :: fullText.getD [])

/-- hasPublicWater (line 517): the public-water indicator in the
facilities text. -/
def hasPublicWaterOf (facilities : Option (List Char)) : Bool :=
  containsSub (facilLowerOf facilities) "offentlig vann".data

/-- waterConnected (line 520). -/
def waterConnectedOf (facilities utilities fullText : Option (List Char)) :
    Bool :=
  jsRegexTestI waterConnectedRe (combinedOf facilities utilities fullText)

/-- roadAccess (line 522). -/
def roadAccessOf (facilities utilities fullText : Option (List Char)) :
    Bool :=
  containsSub (facilLowerOf facilities) "bilvei frem".data ||
  jsRegexTestI roadAccessRe (combinedOf facilities utilities fullText)

/-- notConnected (line 526). -/
def notConnectedOf (facilities utilities fullText : Option (List Char)) :
    Bool :=
  jsRegexTestI notConnectedRe (combinedOf facilities utilities fullText)

/-- classifyDeveloped (lines 511-541): first applicable rule wins; 1 is
developed, 0 undeveloped, null unknown. -/
def classifyDeveloped (facilities utilities fullText : Option (List Char)) :
    Option Int :=
  let hasPublicWater := hasPublicWaterOf facilities
  let waterConnected := waterConnectedOf facilities utilities fullText
  let sewerConnected :=
    jsRegexTestI sewerConnectedRe (combinedOf facilities utilities fullText)
  let roadAccess := roadAccessOf facilities utilities fullText
  let powerConnected :=
    jsRegexTestI powerConnectedRe (combinedOf facilities utilities fullText)
  let notConnected := notConnectedOf facilities utilities fullText
  if hasPublicWater && roadAccess then some 1
  else if hasPublicWater && !notConnected then some 1
  else if waterConnected && !notConnected then some 1
  else if notConnected then some 0
  else if jsTruthyStr facilities && !hasPublicWater && !waterConnected then
    some 0
  else none

/-!
Record normalization: the listing map inside scrapeSearchPage (current
scraper module lines 242-272; the legacy copy at src/scraper.js lines
175-207 differs only in deriving isDeveloped for plots from the property
type, and both versions yield null isDeveloped for the home category).
Raw docs are typed by the provider schema; every field may be absent.
-/

/-- Listing category, always supplied by the caller's query context. -/
inductive Category where
  | home : Category
  | tomt : Category
deriving DecidableEq

/-- Municipality reference data (data/municipalities.json entries). -/
structure Municipality where
  code : List Char
  name : List Char
  hasPropertyTax : Bool
  lat : ℚ
  lon : ℚ

/-- A raw provider listing as the pipeline reads it: the exact set of
fields scrapeSearchPage dereferences, each possibly absent.  Nested
accesses such as price_suggestion?.amount are flattened into one optional
field. -/
structure RawDoc where
  ad_id : Option Int
  id : Option (List Char)
  heading : Option (List Char)
  price_suggestion_amount : Option Int
  price_shared_cost_amount : Option Int
  property_type_description : Option (List Char)
  area_range_size_from : Option Int
  area_plot_size : Option Int
  number_of_bedrooms : Option Int
  image_url : Option (List Char)
  image_urls : Option (List (List Char))
  canonical_url : Option (List Char)
  coordinates_lat : Option ℚ
  coordinates_lon : Option ℚ
  local_area_name : Option (List Char)
  location : Option (List Char)

/-- The canonical listing record built by the normalizer.  The plot
enrichment fields are absent (undefined) at normalization time; the
detail-enrichment pass fills them later. -/
structure CanonicalListing where
  id : List Char
  title : List Char
  price : Option Int
  priceText : List Char
  address : List Char
  area : Option Int
  bedrooms : Option Int
  propertyType : List Char
  imageUrl : List Char
  finnUrl : List Char
  latitude : Option ℚ
  longitude : Option ℚ
  sharedCost : Int
  sharedDebt : Int
  category : Category
  isDeveloped : Option Int
  buildingObligation : String
  buildingObligationText : Option (List Char)
  plotOwned : Option (List Char)
  totalPrice : Option Int
  taxValue : Option Int
  cadastre : Option (List Char)
  facilities : Option (List Char)
  regulations : Option (List Char)
  yearlyCostsText : Option (List Char)
  utilities : Option (List Char)

/-- JS x-or-else-null on an optional number: 0 is falsy and becomes
null. -/
def jsNumOpt (o : Option Int) : Option Int :=
  match o with
  | some x => if x = 0 then none else some x
  | none => none

/-- JS a-or-else-b-or-else-null on two optional numbers. -/
def jsNumOr (a b : Option Int) : Option Int :=
  match jsNumOpt a with
  | some x => some x
  | none => jsNumOpt b

/-- JS s-or-else-fallback on an optional string: null/undefined and the
empty string both fall through. -/
def jsStrOr (a : Option (List Char)) (fallback : List Char) : List Char :=
  match a with
  | some s => if s = [] then fallback else s
  | none => fallback

/-- JS q-or-else-null on an optional rational (latitude/longitude): 0 is
falsy and becomes null. -/
def jsQOpt (o : Option ℚ) : Option ℚ :=
  match o with
  | some q => if q = 0 then none else some q
  | none => none

/-- String coercion of the falsy fallback in String(doc.ad_id with
logical-or doc.id): an undefined pair renders as "undefined", a present
string (even empty) renders as itself. -/
def jsIdFallback : Option (List Char) → List Char
  | some s => s
  | none => "undefined".data

/-- Model of String(doc.ad_id logical-or doc.id) (line 253): a non-zero
numeric ad_id renders in decimal, otherwise the id field is coerced. -/
def jsIdString (adId : Option Int) (docId : Option (List Char)) : List Char :=
  match adId with
  | some a => if a = 0 then jsIdFallback docId else (toString a).data
  | none => jsIdFallback docId

/-- Digit grouping behind Number.prototype.toLocaleString for locale
nb-NO on integers: walk the reversed digit list inserting a no-break
space before every fourth digit. -/
def groupRevAux : List Char → Nat → List Char
  | [], _ => []
  | d :: rest, k =>
    if k = 3 then ' ' :: d :: groupRevAux rest 1
    else d :: groupRevAux rest (k + 1)

/-- Model of Number.prototype.toLocaleString for locale nb-NO on an
integer: decimal digits in groups of three separated by no-break
spaces. -/
def toLocaleNbNO (n : Int) : List Char :=
  let digits := (Nat.repr n.natAbs).data
  let grouped := (groupRevAux digits.reverse 0).reverse
  if n < 0 then '-' :: grouped else grouped

/-- The CDN fallback for the image URL (line 261): the first entry of
image_urls, when present and truthy, appended to the CDN path template,
else the empty string. -/
def imageUrlFallback (doc : RawDoc) : List Char :=
  match doc.image_urls with
  | some (u :: _) =>
    if u = [] then [] else "https://images.finncdn.no/dynamic/default/".data ++ u
  | _ => []

/-- imageUrl (line 261): doc.image?.url, or else the CDN fallback. -/
def imageUrlOf (doc : RawDoc) : List Char :=
  match doc.image_url with
  | some s => if s = [] then imageUrlFallback doc else s
  | none => imageUrlFallback doc

/-- The synthesized detail URL (line 262): the category-appropriate ad
template around the coerced identifier. -/
def finnUrlFor (adSection idStr : List Char) : List Char :=
  "https://www.finn.no/realestate/".data ++ adSection ++
    "/ad.html?finnkode=".data ++ idStr

/-- The listing map of scrapeSearchPage (lines 242-272): one raw doc plus
the query's category and municipality become one CanonicalListing. -/
def normalizeDoc (category : Category) (municipality : Municipality)
    (doc : RawDoc) : CanonicalListing :=
  let price := doc.price_suggestion_amount.getD 0
  let sharedCost := doc.price_shared_cost_amount.getD 0
  let propType := jsToLower (doc.property_type_description.getD [])
  let isDeveloped : Option Int := none
  let adSection :=
    match category with
    | Category.tomt => "plots".data
    | Category.home => "homes".data
  { id := jsIdString doc.ad_id doc.id
    title := doc.heading.getD []
    price := if 0 < price then some price else none
    priceText := if 0 < price then toLocaleNbNO price ++ " kr".data else []
    address := jsStrOr doc.location municipality.name
    area := jsNumOr doc.area_range_size_from doc.area_plot_size
    bedrooms := jsNumOpt doc.number_of_bedrooms
    propertyType := doc.property_type_description.getD []
    imageUrl := imageUrlOf doc
    finnUrl :=
      jsStrOr doc.canonical_url
        (finnUrlFor adSection (jsIdString doc.ad_id doc.id))
    latitude := jsQOpt doc.coordinates_lat
    longitude := jsQOpt doc.coordinates_lon
    sharedCost := sharedCost
    sharedDebt := 0
    category := category
    isDeveloped := isDeveloped
    buildingObligation := "unknown"
    buildingObligationText := none
    plotOwned := none
    totalPrice := none
    taxValue := none
    cadastre := none
    facilities := none
    regulations := none
    yearlyCostsText := none
    utilities := none }

/-- The all-absent raw doc, base for concrete fixtures. -/
def docBase : RawDoc :=
  ⟨none, none, none, none, none, none, none, none, none, none, none, none,
   none, none, none, none⟩

/-- A concrete municipality for fixtures. -/
def muni0 : Municipality :=
  ⟨"3001".data, "Halden".data, false, 0, 0⟩

/-- A raw doc with a concrete positive asking price. -/
def docPrice45 : RawDoc :=
  { docBase with ad_id := some 123456789,
                 price_suggestion_amount := some 4500000 }

/-- A raw doc with a zero asking price. -/
def docPriceZero : RawDoc :=
  { docBase with ad_id := some 123456789,
                 price_suggestion_amount := some 0 }

/-- A raw doc whose only identifier is an empty-string id field. -/
def docEmptyId : RawDoc :=
  { docBase with id := some [] }

/-!
The page loop scrapeAllPages (current scraper module lines 169-191,
byte-identical in the legacy src/scraper.js lines 98-120).  Transport is
abstracted as a function from page number to that page's scrape result;
the loop is instrumented to also return the list of page numbers actually
fetched.
-/

/-- MAX_PAGES (line 5): the hard pagination ceiling. -/
def MAX_PAGES : Int := 10

/-- The pagination metadata object, exposing its last-page field. -/
structure Paging where
  last : Int
deriving DecidableEq

/-- One page's scrape result: its listings plus pagination metadata when
found (findPaging / the paging key may be absent). -/
structure PageResult (α : Type) where
  listings : List α
  paging : Option Paging

/-- The conditional lastPage update of the loop body (lines 180-182):
when paging was found, lastPage becomes min(paging.last or-else 1,
MAX_PAGES), otherwise it is kept. -/
def pagingUpdate (lastPage : Int) (paging : Option Paging) : Int :=
  match paging with
  | some pg => min (if pg.last = 0 then 1 else pg.last) MAX_PAGES
  | none => lastPage

/-- The do-while loop of scrapeAllPages (lines 174-188): fetch the page,
append its listings, recompute lastPage whenever paging was found, and
continue while the incremented page number still does not exceed
lastPage.  The fuel argument only bounds the recursion: since lastPage is
at most 10 after its first assignment and the page number strictly
increases from 1, fuel 10 is never exhausted from the initial state (the
page-count theorem below makes this exact). -/
def scrapeAllPagesGo {α : Type} (fetchPage : Int → PageResult α) :
    Nat → Int → Int → List α → List Int → List α × List Int
  | 0, _, _, acc, fetched => (acc, fetched)
  | fuel + 1, page, lastPage, acc, fetched =>
    let r := fetchPage page
    let acc2 := acc ++ r.listings
    let fetched2 := fetched ++ [page]
    let lastPage2 := pagingUpdate lastPage r.paging
    if page + 1 ≤ lastPage2 then
      scrapeAllPagesGo fetchPage fuel (page + 1) lastPage2 acc2 fetched2
    else (acc2, fetched2)

/-- scrapeAllPages (lines 169-191): run the loop from page 1 with initial
lastPage 1; the first component is the accumulated listings, the second
the pages fetched. -/
def scrapeAllPages {α : Type} (fetchPage : Int → PageResult α) :
    List α × List Int :=
  scrapeAllPagesGo fetchPage 10 1 1 [] []

/-- A transport fixture whose first page reports last = 23 but whose
later pages report last = 1. -/
def fpPageOneSaysMore : Int → PageResult Unit :=
  fun p => if p = 1 then ⟨[], some ⟨23⟩⟩ else ⟨[], some ⟨1⟩⟩

/-!
The storage collaborator: upsertListings.  The current server module
(src/unnamed/part_000 lines 455-538) takes a hasPropertyTax flag and runs
the stale-record eviction only for a non-empty batch; the legacy
src/server.js lines 235-314 has no tax column and runs the eviction
unconditionally.  The database is a list of rows; datetime is an integer
timestamp in seconds, so the SQL datetime comparison last_seen <
datetime(now, minus 7 days) is last_seen < now - 604800.
-/

/-- One row of the listings table. -/
structure StoredRecord where
  id : List Char
  municipality_code : List Char
  municipality_name : List Char
  title : List Char
  price : Option Int
  price_text : List Char
  address : List Char
  area_m2 : Option Int
  bedrooms : Option Int
  property_type : List Char
  image_url : List Char
  finn_url : List Char
  latitude : Option ℚ
  longitude : Option ℚ
  shared_cost : Int
  shared_debt : Int
  category : Category
  is_developed : Option Int
  building_obligation : String
  building_obligation_text : Option (List Char)
  plot_owned : Option (List Char)
  total_price : Option Int
  tax_value : Option Int
  cadastre : Option (List Char)
  facilities : Option (List Char)
  regulations : Option (List Char)
  yearly_costs_text : Option (List Char)
  utilities : Option (List Char)
  has_property_tax : Bool
  first_seen : Int
  last_seen : Int
  is_new : Bool

/-- JS s-or-else-null on an optional string bound parameter: null and
the empty string both become NULL. -/
def optStrFalsy (o : Option (List Char)) : Option (List Char) :=
  match o with
  | some s => if s = [] then none else some s
  | none => none

/-- The listing.buildingObligation or-else-unknown bound parameter. -/
def oblString (s : String) : String :=
  if s = "" then "unknown" else s

/-- A fresh row built by the INSERT branch of the current upsert
statement: all bound column values (with their call-site or-else
coercions; x or-else 0 is the identity on an integer x, and category is
always set so its or-else-home default cannot fire), last_seen = now,
and the schema defaults first_seen = now, is_new = 1. -/
def insertRow (mc mn : List Char) (now : Int) (l : CanonicalListing)
    (tax : Bool) : StoredRecord :=
  { id := l.id
    municipality_code := mc
    municipality_name := mn
    title := l.title
    price := l.price
    price_text := l.priceText
    address := l.address
    area_m2 := l.area
    bedrooms := l.bedrooms
    property_type := l.propertyType
    image_url := l.imageUrl
    finn_url := l.finnUrl
    latitude := jsQOpt l.latitude
    longitude := jsQOpt l.longitude
    shared_cost := l.sharedCost
    shared_debt := l.sharedDebt
    category := l.category
    is_developed := l.isDeveloped
    building_obligation := oblString l.buildingObligation
    building_obligation_text := optStrFalsy l.buildingObligationText
    plot_owned := optStrFalsy l.plotOwned
    total_price := jsNumOpt l.totalPrice
    tax_value := jsNumOpt l.taxValue
    cadastre := optStrFalsy l.cadastre
    facilities := optStrFalsy l.facilities
    regulations := optStrFalsy l.regulations
    yearly_costs_text := optStrFalsy l.yearlyCostsText
    utilities := optStrFalsy l.utilities
    has_property_tax := tax
    first_seen := now
    last_seen := now
    is_new := true }

/-- The ON CONFLICT(id) DO UPDATE branch of the current upsert: only the
listed columns are overwritten (address, area, bedrooms, property type,
finn_url, coordinates, municipality and first_seen are kept), last_seen
moves to now and is_new is cleared. -/
def updateRow (r : StoredRecord) (now : Int) (l : CanonicalListing)
    (tax : Bool) : StoredRecord :=
  { r with
    price := l.price
    price_text := l.priceText
    title := l.title
    image_url := l.imageUrl
    shared_cost := l.sharedCost
    shared_debt := l.sharedDebt
    category := l.category
    is_developed := l.isDeveloped
    building_obligation := oblString l.buildingObligation
    building_obligation_text := optStrFalsy l.buildingObligationText
    plot_owned := optStrFalsy l.plotOwned
    total_price := jsNumOpt l.totalPrice
    tax_value := jsNumOpt l.taxValue
    cadastre := optStrFalsy l.cadastre
    facilities := optStrFalsy l.facilities
    regulations := optStrFalsy l.regulations
    yearly_costs_text := optStrFalsy l.yearlyCostsText
    utilities := optStrFalsy l.utilities
    has_property_tax := tax
    last_seen := now
    is_new := false }

/-- One iteration of the current transaction loop (part_000 lines
488-525): count a new id, then insert or update by primary key. -/
def upsertStep (mc mn : List Char) (now : Int) (tax : Bool)
    (st : List StoredRecord × Nat) (l : CanonicalListing) :
    List StoredRecord × Nat :=
  let isExisting := st.1.any (fun r => decide (r.id = l.id))
  let cnt := if isExisting then st.2 else st.2 + 1
  let db2 :=
    if isExisting then
      st.1.map (fun r => if r.id = l.id then updateRow r now l tax else r)
    else st.1 ++ [insertRow mc mn now l tax]
  (db2, cnt)

/-- Seven days in seconds, the eviction window. -/
def SEVEN_DAYS : Int := 7 * 86400

/-- Is a row evicted by the stale-record DELETE for this municipality? -/
def isStale (mc : List Char) (now : Int) (r : StoredRecord) : Bool :=
  decide (r.municipality_code = mc ∧ r.last_seen < now - SEVEN_DAYS)

/-- upsertListings of the current server module (part_000 lines 455-538):
run the batch through the transaction, then delete stale rows of this
municipality, but only when the scrape returned results. -/
def upsertListings (db : List StoredRecord) (now : Int) (mc mn : List Char)
    (listings : List CanonicalListing) (hasPropertyTax : Bool) :
    List StoredRecord × Nat :=
  let res := listings.foldl (upsertStep mc mn now hasPropertyTax) (db, 0)
  if listings.length > 0 then
    (res.1.filter (fun r => !isStale mc now r), res.2)
  else res

/-- The legacy update branch (src/server.js lines 243-263): identical to
the current one except that no has_property_tax column exists. -/
def updateRowLegacy (r : StoredRecord) (now : Int) (l : CanonicalListing) :
    StoredRecord :=
  { r with
    price := l.price
    price_text := l.priceText
    title := l.title
    image_url := l.imageUrl
    shared_cost := l.sharedCost
    shared_debt := l.sharedDebt
    category := l.category
    is_developed := l.isDeveloped
    building_obligation := oblString l.buildingObligation
    building_obligation_text := optStrFalsy l.buildingObligationText
    plot_owned := optStrFalsy l.plotOwned
    total_price := jsNumOpt l.totalPrice
    tax_value := jsNumOpt l.taxValue
    cadastre := optStrFalsy l.cadastre
    facilities := optStrFalsy l.facilities
    regulations := optStrFalsy l.regulations
    yearly_costs_text := optStrFalsy l.yearlyCostsText
    utilities := optStrFalsy l.utilities
    last_seen := now
    is_new := false }

/-- One iteration of the legacy transaction loop; inserted rows leave the
has_property_tax column at its schema default (false). -/
def upsertStepLegacy (mc mn : List Char) (now : Int)
    (st : List StoredRecord × Nat) (l : CanonicalListing) :
    List StoredRecord × Nat :=
  let isExisting := st.1.any (fun r => decide (r.id = l.id))
  let cnt := if isExisting then st.2 else st.2 + 1
  let db2 :=
    if isExisting then
      st.1.map (fun r => if r.id = l.id then updateRowLegacy r now l else r)
    else st.1 ++ [insertRow mc mn now l false]
  (db2, cnt)

/-- upsertListings of the legacy src/server.js (lines 235-314): the
stale-record DELETE runs unconditionally after the transaction, with no
empty-batch guard. -/
def upsertListingsLegacy (db : List StoredRecord) (now : Int)
    (mc mn : List Char) (listings : List CanonicalListing) :
    List StoredRecord × Nat :=
  let res := listings.foldl (upsertStepLegacy mc mn now) (db, 0)
  (res.1.filter (fun r => !isStale mc now r), res.2)

/-- A concrete stored row for the municipality 3001 whose last_seen lies
more than seven days before the fixture's current time 700000. -/
def staleRecord : StoredRecord :=
  { id := "200".data
    municipality_code := "3001".data
    municipality_name := "Halden".data
    title := "Enebolig".data
    price := some 2000000
    price_text := "2 000 000 kr".data
    address := "Halden".data
    area_m2 := some 120
    bedrooms := some 3
    property_type := "Enebolig".data
    image_url := []
    finn_url := "https://www.finn.no/realestate/homes/ad.html?finnkode=200".data
    latitude := none
    longitude := none
    shared_cost := 0
    shared_debt := 0
    category := Category.home
    is_developed := none
    building_obligation := "unknown"
    building_obligation_text := none
    plot_owned := none
    total_price := none
    tax_value := none
    cadastre := none
    facilities := none
    regulations := none
    yearly_costs_text := none
    utilities := none
    has_property_tax := false
    first_seen := 0
    last_seen := 0
    is_new := false }

/-!
Supporting lemmas.
-/

/-- The pattern loop finds nothing exactly when no pattern of the list
occurs in the text. -/
theorem scanPatterns_eq_none_iff (text : List Char) :
    ∀ ps : List (List Char),
      scanPatterns text ps = none ↔ ∀ p ∈ ps, containsSub text p = false := by
  intro ps
  induction ps with
  | nil => simp [scanPatterns]
  | cons p rest ih =>
    simp only [scanPatterns]
    cases h : indexOfSub text p with
    | some idx => simp [List.forall_mem_cons, containsSub, h]
    | none => simp [List.forall_mem_cons, containsSub, h, ih]

/-- Depth of a mapped value list is bounded when each image is bounded. -/
theorem jdepthList_map_le (F : JVal → JVal) (n : Nat) :
    ∀ xs : List JVal, (∀ x ∈ xs, jdepth (F x) ≤ n) →
      jdepthList (xs.map F) ≤ n := by
  intro xs
  induction xs with
  | nil => intro _; simp [jdepthList]
  | cons x xs ih =>
    intro h
    simp only [List.map_cons, jdepthList]
    exact max_le (h x (by simp)) (ih fun y hy => h y (by simp [hy]))

/-- Depth of a mapped entry list is bounded when each image value is
bounded. -/
theorem jdepthEntries_map_le (G : String → String) (F : JVal → JVal)
    (n : Nat) :
    ∀ entries : List (String × JVal),
      (∀ kv ∈ entries, jdepth (F kv.2) ≤ n) →
      jdepthEntries (entries.map fun kv => (G kv.1, F kv.2)) ≤ n := by
  intro entries
  induction entries with
  | nil => intro _; simp [jdepthEntries]
  | cons kv rest ih =>
    intro h
    simp only [List.map_cons, jdepthEntries]
    exact max_le (h kv (by simp)) (ih fun y hy => h y (by simp [hy]))

/-- The fuel bounds the nesting depth of everything resolveRefF builds:
with fuel 0 the result is null (depth 0), and each level of object or
array construction consumes one unit. -/
theorem jdepth_resolveRefF (a : List JVal) :
    ∀ (fuel : Nat) (idx : JVal), jdepth (resolveRefF a fuel idx) ≤ fuel := by
  intro fuel
  induction fuel with
  | zero => intro idx; simp [resolveRefF, jdepth]
  | succ f ih =>
    intro idx
    have hd : ∀ v, jdepth (resolveDispatch a f v) ≤ f + 1 := by
      intro v
      cases v with
      | obj entries =>
        simp only [resolveDispatch, jdepth]
        have := jdepthEntries_map_le (objKeyName a) (resolveRefF a f) f
          entries (fun kv _ => ih kv.2)
        omega
      | arr xs =>
        simp only [resolveDispatch, jdepth]
        have := jdepthList_map_le (fun x => resolveRefF a f x) f xs
          (fun x _ => ih x)
        omega
      | null => simp [resolveDispatch, jdepth]
      | undef => simp [resolveDispatch, jdepth]
      | bool b => simp [resolveDispatch, jdepth]
      | num n => simp [resolveDispatch, jdepth]
      | str s => simp [resolveDispatch, jdepth]
    cases idx with
    | num n =>
      by_cases hn : n < 0
      · simp [resolveRefF, hn, jdepth]
      · simp only [resolveRefF, if_neg hn]
        exact hd _
    | null => simp only [resolveRefF]; exact hd _
    | undef => simp only [resolveRefF]; exact hd _
    | bool b => simp only [resolveRefF]; exact hd _
    | str s => simp only [resolveRefF]; exact hd _
    | arr xs => simp only [resolveRefF]; exact hd _
    | obj entries => simp only [resolveRefF]; exact hd _

/-!
Claim theorems.
-/

/-- C3: a text containing any no-obligation phrase classifies as none,
whatever clause or deadline phrases it also contains; with no
no-obligation phrase the clause list decides, then the deadline list —
the fixed priority order of classifyObligation. -/
theorem classifyObligation_priority :
    ∀ text : List Char,
      ((∃ p ∈ NO_OBLIGATION_PATTERNS, containsSub text p = true) →
        (classifyObligation text).obligation = "none") ∧
      ((∀ p ∈ NO_OBLIGATION_PATTERNS, containsSub text p = false) →
       (∃ p ∈ HAS_CLAUSE_PATTERNS, containsSub text p = true) →
        (classifyObligation text).obligation = "has_clause") ∧
      ((∀ p ∈ NO_OBLIGATION_PATTERNS, containsSub text p = false) →
       (∀ p ∈ HAS_CLAUSE_PATTERNS, containsSub text p = false) →
       (∃ p ∈ HAS_DEADLINE_PATTERNS, containsSub text p = true) →
        (classifyObligation text).obligation = "has_deadline") := by
  intro text
  refine ⟨?_, ?_, ?_⟩
  · rintro ⟨p, hp, hc⟩
    cases hno : scanPatterns text NO_OBLIGATION_PATTERNS with
    | none =>
      exact absurd ((scanPatterns_eq_none_iff text _).1 hno p hp)
        (by simp [hc])
    | some r =>
      obtain ⟨q, idx⟩ := r
      simp [classifyObligation, hno]
  · rintro hno ⟨p, hp, hc⟩
    have h1 : scanPatterns text NO_OBLIGATION_PATTERNS = none :=
      (scanPatterns_eq_none_iff text _).2 hno
    cases hcl : scanPatterns text HAS_CLAUSE_PATTERNS with
    | none =>
      exact absurd ((scanPatterns_eq_none_iff text _).1 hcl p hp)
        (by simp [hc])
    | some r =>
      obtain ⟨q, idx⟩ := r
      simp [classifyObligation, h1, hcl]
  · rintro hno hcl ⟨p, hp, hc⟩
    have h1 : scanPatterns text NO_OBLIGATION_PATTERNS = none :=
      (scanPatterns_eq_none_iff text _).2 hno
    have h2 : scanPatterns text HAS_CLAUSE_PATTERNS = none :=
      (scanPatterns_eq_none_iff text _).2 hcl
    cases hdl : scanPatterns text HAS_DEADLINE_PATTERNS with
    | none =>
      exact absurd ((scanPatterns_eq_none_iff text _).1 hdl p hp)
        (by simp [hc])
    | some r =>
      obtain ⟨q, idx⟩ := r
      simp [classifyObligation, h1, h2, hdl]

/-- Witness for C3: a text holding both a clause phrase and, later, a
no-obligation phrase still classifies as none. -/
theorem classifyObligation_priority_w :
    (∃ p ∈ NO_OBLIGATION_PATTERNS,
      containsSub "tomt med byggeklausul og ingen byggeplikt".data p = true) ∧
    (classifyObligation "tomt med byggeklausul og ingen byggeplikt".data).obligation
      = "none" := by
  have hex : ∃ p ∈ NO_OBLIGATION_PATTERNS,
      containsSub "tomt med byggeklausul og ingen byggeplikt".data p = true := by
    decide
  exact ⟨hex, (classifyObligation_priority _).1 hex⟩

/-- C5: a negative reference index resolves to null at every depth. -/
theorem resolveRef_neg_index_null :
    ∀ (a : List JVal) (n : Int) (depth : Nat), n < 0 →
      resolveRefD a (JVal.num n) depth = JVal.null := by
  intro a n depth h
  unfold resolveRefD
  cases hf : 16 - depth with
  | zero => simp [resolveRefF]
  | succ f => simp [resolveRefF, h]

/-- Witness for C5: index -5 (the undefined marker) resolves to null at
depth 0 on a concrete flat array. -/
theorem resolveRef_neg_index_null_w :
    (-5 : Int) < 0 ∧
    resolveRefD [JVal.str "x"] (JVal.num (-5)) 0 = JVal.null :=
  ⟨by norm_num, resolveRef_neg_index_null [JVal.str "x"] (-5) 0 (by norm_num)⟩

/-- C4: the depth guard makes resolution total and bounded — any call past
depth 15 returns null outright, and the value built from depth `d` nests
at most `16 - d` levels, so even a self-referential flat array yields a
finite result. -/
theorem resolveRef_depth_guard :
    ∀ (a : List JVal) (idx : JVal) (depth : Nat),
      (15 < depth → resolveRefD a idx depth = JVal.null) ∧
      jdepth (resolveRefD a idx depth) ≤ 16 - depth := by
  intro a idx depth
  constructor
  · intro h
    unfold resolveRefD
    have h0 : 16 - depth = 0 := by omega
    rw [h0]
    simp [resolveRefF]
  · exact jdepth_resolveRefF a (16 - depth) idx

/-- Witness for C4 on the self-referential fixture [ "self", an object
whose single entry points back at position 1 ]: depth 16 hard-fails to
null, and the depth-0 resolution is bounded by 16 levels. -/
theorem resolveRef_depth_guard_w :
    resolveRefD [JVal.str "self", JVal.obj [("_0", JVal.num 1)]]
      (JVal.num 1) 16 = JVal.null ∧
    jdepth (resolveRefD [JVal.str "self", JVal.obj [("_0", JVal.num 1)]]
      (JVal.num 1) 0) ≤ 16 :=
  ⟨(resolveRef_depth_guard _ _ 16).1 (by norm_num),
   (resolveRef_depth_guard [JVal.str "self", JVal.obj [("_0", JVal.num 1)]]
     (JVal.num 1) 0).2⟩

/-- Amended C2: the decode entry point of the current extractor handles
only Encoding B — on any document without the streaming-enqueue marker
(in particular on an Encoding A document) decodeTurboStream yields null,
whatever the JSON parser does. -/
theorem decodeTurboStream_requires_enqueue_marker :
    ∀ (parseStrLit : List Char → Option (List Char))
      (parseJsonArr : List Char → Option (List JVal)) (html : List Char),
      containsSub html enqueueMarker = false →
      decodeTurboStream parseStrLit parseJsonArr html = none := by
  intro p1 p2 html h
  have hidx : indexOfSub html enqueueMarker = none := by
    cases hi : indexOfSub html enqueueMarker with
    | none => rfl
    | some i => simp [containsSub, hi] at h
  simp [decodeTurboStream, decodeTurboStreamExtract, hidx]

/-- Witness for the amended C2 at the concrete Encoding A document. -/
theorem decodeTurboStream_requires_enqueue_marker_w :
    containsSub htmlEncodingA enqueueMarker = false ∧
    decodeTurboStream (fun s => some s) (fun _ => some []) htmlEncodingA
      = none :=
  ⟨by decide,
   decodeTurboStream_requires_enqueue_marker _ _ htmlEncodingA (by decide)⟩

/-- Counterexample to C2 as stated: a document carrying the Encoding A
marker is not decoded by the exposed decode entry point — the turbo-stream
extraction already fails, so no single decode function succeeds on pages
of both encodings. -/
theorem decode_entry_point_cex :
    containsSub htmlEncodingA remixMarker = true ∧
    decodeTurboStreamExtract htmlEncodingA = none := by
  exact ⟨by decide, by decide⟩

/-- Amended C7: when the priority scan selects pattern `p` at its first
occurrence `idx`, the returned snippet is the window from max(0, idx-40)
to idx + length p + 40 (clamped to the text) with surrounding whitespace
trimmed. -/
theorem classifyObligation_snippet_window :
    ∀ (text p : List Char) (idx : Nat),
      obligationScan text = some (p, idx) →
      (classifyObligation text).text =
        some (trimJS (substringJS text (idx - 40) (idx + p.length + 40))) := by
  intro text p idx h
  unfold obligationScan at h
  cases h1 : scanPatterns text NO_OBLIGATION_PATTERNS with
  | some r =>
    simp only [h1] at h
    obtain ⟨q, i⟩ := r
    simp only [Option.some.injEq, Prod.mk.injEq] at h
    obtain ⟨rfl, rfl⟩ := h
    simp [classifyObligation, h1, mkSnippet]
  | none =>
    simp only [h1] at h
    cases h2 : scanPatterns text HAS_CLAUSE_PATTERNS with
    | some r =>
      simp only [h2] at h
      obtain ⟨q, i⟩ := r
      simp only [Option.some.injEq, Prod.mk.injEq] at h
      obtain ⟨rfl, rfl⟩ := h
      simp [classifyObligation, h1, h2, mkSnippet]
    | none =>
      simp only [h2] at h
      simp [classifyObligation, h1, h2, h, mkSnippet]

/-- Witness for the amended C7 on a concrete text whose match window
carries leading whitespace. -/
theorem classifyObligation_snippet_window_w :
    (classifyObligation " valgfri".data).text =
      some (trimJS (substringJS " valgfri".data (1 - 40)
        (1 + "valgfri".data.length + 40))) :=
  classifyObligation_snippet_window " valgfri".data "valgfri".data 1 (by decide)

/-- Counterexample to C7 as stated: on the text consisting of a space
followed by valgfri, the pattern valgfri first matches at position 1, but
the returned snippet is the trimmed window, not the raw substring from
max(0, 1-40) to 1+7+40. -/
theorem classifyObligation_snippet_cex :
    obligationScan " valgfri".data = some ("valgfri".data, 1) ∧
    (classifyObligation " valgfri".data).text = some "valgfri".data ∧
    (classifyObligation " valgfri".data).text ≠
      some (substringJS " valgfri".data (1 - 40)
        (1 + "valgfri".data.length + 40)) := by
  exact ⟨by decide, by decide, by decide⟩

/-- With a transport whose every page reports the same pagination value
L (after the or-else-1 and MAX_PAGES clamping), the loop from page
`page` fetches exactly 1 + (L - page).toNat pages, provided enough
fuel. -/
theorem scrapeGo_const_count {α : Type} (fp : Int → PageResult α) (L : Int)
    (hfp : ∀ p lp : Int, pagingUpdate lp (fp p).paging = L) :
    ∀ (fuel : Nat) (page lastPage : Int) (acc : List α) (fetched : List Int),
      (L - page).toNat < fuel →
      ((scrapeAllPagesGo fp fuel page lastPage acc fetched).2).length =
        fetched.length + 1 + (L - page).toNat := by
  intro fuel
  induction fuel with
  | zero => intro page lastPage acc fetched h; exact absurd h (Nat.not_lt_zero _)
  | succ f ih =>
    intro page lastPage acc fetched h
    simp only [scrapeAllPagesGo, hfp page lastPage]
    by_cases hc : page + 1 ≤ L
    · rw [if_pos hc, ih (page + 1) L _ _ (by omega)]
      simp only [List.length_append, List.length_cons, List.length_nil]
      omega
    · rw [if_neg hc]
      simp only [List.length_append, List.length_cons, List.length_nil]
      omega

/-- Amended C6: when every fetched page's pagination reports last = N,
the loop fetches exactly 10 pages for N above the MAX_PAGES ceiling and
exactly max(N, 1) pages for N at most 10. -/
theorem scrapeAllPages_page_clamp :
    ∀ (α : Type) (fp : Int → PageResult α) (N : Int),
      (∀ p : Int, (fp p).paging = some ⟨N⟩) →
      (10 < N → ((scrapeAllPages fp).2).length = 10) ∧
      (N ≤ 10 → (((scrapeAllPages fp).2).length : Int) = max N 1) := by
  intro α fp N hfp
  have hupd : ∀ p lp : Int,
      pagingUpdate lp (fp p).paging = min (if N = 0 then 1 else N) 10 := by
    intro p lp
    simp [pagingUpdate, hfp p, MAX_PAGES]
  rcases eq_or_ne N 0 with rfl | hN0
  · norm_num at hupd
    have hcount := scrapeGo_const_count fp 1 hupd 10 1 1 [] [] (by norm_num)
    unfold scrapeAllPages
    simp only [List.length_nil] at hcount
    constructor
    · intro h; omega
    · intro h; omega
  · have hupd' : ∀ p lp : Int, pagingUpdate lp (fp p).paging = min N 10 := by
      intro p lp
      rw [hupd p lp, if_neg hN0]
    have hb : (min N 10 - 1).toNat < 10 := by omega
    have hcount := scrapeGo_const_count fp (min N 10) hupd' 10 1 1 [] [] hb
    unfold scrapeAllPages
    simp only [List.length_nil] at hcount
    constructor
    · intro h; omega
    · intro h; omega

/-- Witness for the amended C6: constant pagination last = 23 fetches
exactly 10 pages. -/
theorem scrapeAllPages_page_clamp_w :
    ((scrapeAllPages (fun _ => (⟨[], some ⟨23⟩⟩ : PageResult Unit))).2).length
      = 10 :=
  (scrapeAllPages_page_clamp Unit (fun _ => ⟨[], some ⟨23⟩⟩) 23
    (fun _ => rfl)).1 (by norm_num)

/-- Counterexample to C6 as stated: a query whose first page reports
last = 23 but whose second page reports last = 1 fetches exactly the two
pages 1 and 2, not 10 — the loop re-reads the pagination of every
page. -/
theorem scrapeAllPages_pageone_cex :
    (fpPageOneSaysMore 1).paging = some ⟨23⟩ ∧
    (scrapeAllPages fpPageOneSaysMore).2 = [1, 2] := by
  exact ⟨by decide, by decide⟩

/-- C8: the development classifier's rule order — public water in the
facilities with no not-connected signal anywhere yields developed (1),
and when none of the three developed rules applies, a not-connected match
yields undeveloped (0). -/
theorem classifyDeveloped_rules :
    ∀ facilities utilities fullText : Option (List Char),
      (hasPublicWaterOf facilities = true →
       notConnectedOf facilities utilities fullText = false →
       classifyDeveloped facilities utilities fullText = some 1) ∧
      ((hasPublicWaterOf facilities &&
          roadAccessOf facilities utilities fullText) = false →
       (hasPublicWaterOf facilities &&
          !notConnectedOf facilities utilities fullText) = false →
       (waterConnectedOf facilities utilities fullText &&
          !notConnectedOf facilities utilities fullText) = false →
       notConnectedOf facilities utilities fullText = true →
       classifyDeveloped facilities utilities fullText = some 0) := by
  intro f u t
  constructor
  · intro h1 h2
    unfold classifyDeveloped
    by_cases hr : roadAccessOf f u t = true
    · simp [h1, hr]
    · rw [Bool.not_eq_true] at hr
      simp [h1, h2, hr]
  · intro h1 h2 h3 h4
    unfold classifyDeveloped
    simp [h1, h2, h3, h4]

/-- Witness for C8: public water/sewer facilities alone classify as
developed, and a not-connected utilities text with no developed rule
applicable classifies as undeveloped. -/
theorem classifyDeveloped_rules_w :
    classifyDeveloped (some "Offentlig vann/kloakk".data) none none
      = some 1 ∧
    classifyDeveloped none (some "ikke tilknyttet vann".data) none
      = some 0 := by
  constructor
  · exact (classifyDeveloped_rules _ _ _).1 (by decide) (by decide)
  · exact (classifyDeveloped_rules _ _ _).2 (by decide) (by decide)
      (by decide) (by decide)

/-- C9: a zero or absent asking price normalizes to a null price with an
empty display string; a positive price is kept and rendered as the
locale-grouped digits followed by kr, a non-empty string ending in
kr. -/
theorem normalizeDoc_price :
    ∀ (cat : Category) (m : Municipality) (doc : RawDoc),
      ((doc.price_suggestion_amount = none ∨
        doc.price_suggestion_amount = some 0) →
        (normalizeDoc cat m doc).price = none ∧
        (normalizeDoc cat m doc).priceText = []) ∧
      (∀ a : Int, doc.price_suggestion_amount = some a → 0 < a →
        (normalizeDoc cat m doc).price = some a ∧
        (normalizeDoc cat m doc).priceText = toLocaleNbNO a ++ " kr".data ∧
        (normalizeDoc cat m doc).priceText ≠ [] ∧
        ∃ s : List Char,
          (normalizeDoc cat m doc).priceText = s ++ "kr".data) := by
  intro cat m doc
  constructor
  · rintro (h | h) <;> simp [normalizeDoc, h]
  · intro a ha hpos
    have hp : (normalizeDoc cat m doc).price = some a := by
      simp [normalizeDoc, ha, hpos]
    have ht : (normalizeDoc cat m doc).priceText
        = toLocaleNbNO a ++ " kr".data := by
      simp [normalizeDoc, ha, hpos]
    refine ⟨hp, ht, ?_, ?_⟩
    · rw [ht]
      intro hc
      rw [List.append_eq_nil] at hc
      exact absurd hc.2 (by decide)
    · refine ⟨toLocaleNbNO a ++ [' '], ?_⟩
      rw [ht]
      simp

/-- Witness for C9 at price 0 and price 4500000. -/
theorem normalizeDoc_price_w :
    (normalizeDoc Category.home muni0 docPriceZero).price = none ∧
    (normalizeDoc Category.home muni0 docPriceZero).priceText = [] ∧
    (normalizeDoc Category.home muni0 docPrice45).price = some 4500000 ∧
    (normalizeDoc Category.home muni0 docPrice45).priceText
      = toLocaleNbNO 4500000 ++ " kr".data := by
  have h0 := (normalizeDoc_price Category.home muni0 docPriceZero).1
    (Or.inr rfl)
  have h45 := (normalizeDoc_price Category.home muni0 docPrice45).2
    4500000 rfl (by norm_num)
  exact ⟨h0.1, h0.2, h45.1, h45.2.1⟩

/-- The digit list behind Nat.repr only grows inside toDigitsCore. -/
theorem toDigitsCore_length_ge (b : Nat) :
    ∀ (f n : Nat) (l : List Char),
      l.length ≤ (Nat.toDigitsCore b f n l).length := by
  intro f
  induction f with
  | zero => intro n l; simp [Nat.toDigitsCore]
  | succ f ih =>
    intro n l
    simp only [Nat.toDigitsCore]
    split
    · simp
    · exact le_trans (by simp) (ih (n / b) (Nat.digitChar (n % b) :: l))

/-- Nat.repr never renders as the empty character list. -/
theorem natRepr_data_ne_nil (n : Nat) : (Nat.repr n).data ≠ [] := by
  have hd : (Nat.repr n).data = Nat.toDigits 10 n := rfl
  rw [hd]
  unfold Nat.toDigits
  simp only [Nat.toDigitsCore]
  split
  · simp
  · intro hc
    have hlen := toDigitsCore_length_ge 10 n (n / 10)
      [Nat.digitChar (n % 10)]
    rw [hc] at hlen
    simp at hlen

/-- The decimal rendering of an integer is never empty. -/
theorem intToString_data_ne_nil (a : Int) : (toString a).data ≠ [] := by
  cases a with
  | ofNat m => exact natRepr_data_ne_nil m
  | negSucc m =>
    show (("-" ++ Nat.repr (m + 1) : String)).data ≠ []
    rcases hs : Nat.repr (m + 1) with ⟨l⟩
    show ('-' :: l : List Char) ≠ []
    simp

/-- The or-else string fallback is non-empty whenever the fallback is. -/
theorem jsStrOr_ne_nil (a : Option (List Char)) (fb : List Char)
    (hfb : fb ≠ []) : jsStrOr a fb ≠ [] := by
  unfold jsStrOr
  cases a with
  | none => exact hfb
  | some s =>
    by_cases hs : s = [] <;> simp [hs, hfb]

/-- The synthesized detail URL is never empty. -/
theorem finnUrlFor_ne_nil (s i : List Char) : finnUrlFor s i ≠ [] := by
  unfold finnUrlFor
  rw [show "https://www.finn.no/realestate/".data
      = 'h' :: "ttps://www.finn.no/realestate/".data from rfl]
  simp

/-- Amended C10: every normalized listing has isDeveloped null for the
home category, a non-empty finnUrl, and the caller's category; its id is
non-empty provided the raw doc's id field is not the empty string or its
ad_id is a non-zero number. -/
theorem normalizeDoc_invariants :
    ∀ (cat : Category) (m : Municipality) (doc : RawDoc),
      (cat = Category.home → (normalizeDoc cat m doc).isDeveloped = none) ∧
      (normalizeDoc cat m doc).finnUrl ≠ [] ∧
      (normalizeDoc cat m doc).category = cat ∧
      ((doc.id ≠ some [] ∨ ∃ a : Int, doc.ad_id = some a ∧ a ≠ 0) →
        (normalizeDoc cat m doc).id ≠ []) := by
  intro cat m doc
  refine ⟨fun _ => rfl, ?_, rfl, ?_⟩
  · show jsStrOr doc.canonical_url _ ≠ []
    exact jsStrOr_ne_nil _ _ (finnUrlFor_ne_nil _ _)
  · intro h
    show jsIdString doc.ad_id doc.id ≠ []
    rcases h with h | ⟨a, ha, hna⟩
    · unfold jsIdString jsIdFallback
      cases hid : doc.ad_id with
      | some b =>
        by_cases hb : b = 0
        · subst hb
          simp only [if_pos rfl]
          cases hdi : doc.id with
          | some s =>
            rw [hdi] at h
            simp only [ne_eq, Option.some.injEq] at h
            simpa using h
          | none => simp
        · simp only [if_neg hb]
          exact intToString_data_ne_nil b
      | none =>
        cases hdi : doc.id with
        | some s =>
          rw [hdi] at h
          simp only [ne_eq, Option.some.injEq] at h
          simpa using h
        | none => simp
    · unfold jsIdString
      rw [ha]
      show (if a = 0 then jsIdFallback doc.id else (toString a).data) ≠ []
      rw [if_neg hna]
      exact intToString_data_ne_nil a

/-- Witness for the amended C10 on a home listing with a numeric
ad_id. -/
theorem normalizeDoc_invariants_w :
    (normalizeDoc Category.home muni0 docPrice45).isDeveloped = none ∧
    (normalizeDoc Category.home muni0 docPrice45).finnUrl ≠ [] ∧
    (normalizeDoc Category.home muni0 docPrice45).category = Category.home ∧
    (normalizeDoc Category.home muni0 docPrice45).id ≠ [] := by
  obtain ⟨h1, h2, h3, h4⟩ := normalizeDoc_invariants Category.home muni0
    docPrice45
  exact ⟨h1 rfl, h2, h3,
    h4 (Or.inr ⟨123456789, rfl, by norm_num⟩)⟩

/-- Counterexample to C10 as stated: a raw doc whose ad_id is absent and
whose id field is the empty string normalizes to a listing with an empty
id. -/
theorem normalizeDoc_empty_id_cex :
    (normalizeDoc Category.home muni0 docEmptyId).id = [] := rfl

/-- Amended C1: in the current server's upsertListings an empty batch
returns the stored rows unchanged (and zero new listings) for every
database state — the stale-record eviction never runs on an empty
batch. -/
theorem upsertListings_empty_batch :
    ∀ (db : List StoredRecord) (now : Int) (mc mn : List Char)
      (tax : Bool),
      upsertListings db now mc mn [] tax = (db, 0) := by
  intro db now mc mn tax
  rfl

/-- Counterexample to C1 as stated for the legacy src/server.js variant:
its unguarded eviction lets an empty batch delete a stored record of the
municipality whose last_seen is more than seven days old. -/
theorem upsertListingsLegacy_empty_batch_cex :
    staleRecord.municipality_code = "3001".data ∧
    staleRecord.last_seen < 700000 - SEVEN_DAYS ∧
    upsertListingsLegacy [staleRecord] 700000 "3001".data "Halden".data []
      = ([], 0) := by
  refine ⟨rfl, by norm_num [staleRecord, SEVEN_DAYS], ?_⟩
  rfl

end NPF
